/-
Verification of the seekme vector-search SDK against its design
specification.  The Python sources under `src/seekme` are shallowly
embedded: Python runtime values become the inductive `PyVal`, raised
SDK errors become the inductive `Err`, fallible functions return
`Except Err _`, and driver traffic is recorded as an explicit trace of
`DbOp` operations.  Floating-point numbers are never computed with by
the code under study (they are only rendered), so a float is carried as
its repr string.  Similarly, `bytes` values are carried as their
UTF-8-decoded text, which is the only view the code takes of them.
-/
import Mathlib

set_option maxRecDepth 2000

namespace SeekMe

/-- A single quote character (used when building SQL literals). -/
def squote : Char := '\x27'

/-- A double quote character (used when building JSON strings). -/
def dquote : Char := '"'

/-- Python runtime values, as far as the validators, renderers and SQL
builders of the SDK inspect them.  `pfloat` carries the float repr
string; `pbytes` carries the UTF-8 decoding (with replacement) of the
byte string, which is the only way the embedded code consumes bytes. -/
inductive PyVal where
  | pstr (s : String)
  | pint (n : Int)
  | pfloat (r : String)
  | pbool (b : Bool)
  | pnone
  | pbytes (decoded : String)
  | plist (xs : List PyVal)
  | pdict (kvs : List (String × PyVal))
  deriving Repr

/-- `isinstance(value, str)` -/
def PyVal.isStr : PyVal → Bool
  | .pstr _ => true
  | _ => false

/-- `isinstance(value, int)`: in Python, `bool` is a subclass of `int`. -/
def PyVal.isInstInt : PyVal → Bool
  | .pint _ => true
  | .pbool _ => true
  | _ => false

/-- `isinstance(value, (str, int, float, bool))` -/
def PyVal.isStrIntFloatBool : PyVal → Bool
  | .pstr _ => true
  | .pint _ => true
  | .pfloat _ => true
  | .pbool _ => true
  | _ => false

/-- The integer value of a Python `int` (with `True == 1`, `False == 0`);
only consulted after an `isinstance(value, int)` check succeeded. -/
def PyVal.toIntVal : PyVal → Int
  | .pint n => n
  | .pbool b => if b then 1 else 0
  | _ => 0

/-- `str(value)` as used by the renderers (f-string interpolation). -/
def PyVal.pyStr : PyVal → String
  | .pstr s => s
  | .pint n => toString n
  | .pfloat r => r
  | .pbool true => "True"
  | .pbool false => "False"
  | .pnone => "None"
  | .pbytes t => t
  | .plist _ => "<list>"
  | .pdict _ => "<dict>"

/-- Errors raised by the SDK (`seekme.exceptions` constructors, keyed by
the classmethod that builds them), plus the two raw Python error kinds
(`TypeError`, `ValueError`) that can escape the embedded code paths. -/
inductive Err where
  | invalidIdentifier (name : String)
  | invalidIndexOption (option : String)
  | invalidIndexPropertyName (name : String)
  | invalidIndexPropertyValue (name : String)
  | unsupportedIndexOption (option : String) (value : String)
  | missingIndexProperty (indexType : String) (key : String)
  | unsupportedIndexProperty (indexType : String) (key : String)
  | distanceRequired
  | dimensionMustBePositive
  | idsVectorsMismatch
  | metadatasMismatch
  | returnFieldsEmpty
  | embeddingEmpty
  | embeddingNotConfigured
  | invalidFilterKey (name : String)
  | invalidFilterValue (name : String)
  | metadataSerializationFailed
  | missingSqlParameter (name : String)
  | extensionNotFound (kind : String) (name : String)
  | pyTypeError (message : String)
  | pyValueError (message : String)
  | pyKeyError (key : String)
  deriving DecidableEq, Repr

/-- Whether an error belongs to the SDK's typed validation taxonomy
(as opposed to a raw Python `TypeError`/`ValueError`/`KeyError` or an
extension-lookup failure). -/
def Err.isTypedValidation : Err → Bool
  | .extensionNotFound _ _ => false
  | .pyTypeError _ => false
  | .pyValueError _ => false
  | .pyKeyError _ => false
  | _ => true

/-! ## `seekme.identifiers` -/

/-- First character class of the identifier regex: `[A-Za-z_]`. -/
def isIdentStartChar (c : Char) : Bool :=
  c.isAlpha || c = '_'

/-- Tail character class of the identifier regex: `[A-Za-z0-9_]`. -/
def isIdentTailChar (c : Char) : Bool :=
  c.isAlpha || c.isDigit || c = '_'

/-- Whether a character sequence matches `[A-Za-z_][A-Za-z0-9_]*`. -/
def isIdentifierCore : List Char → Bool
  | [] => false
  | c :: rest => isIdentStartChar c && rest.all isIdentTailChar

/-- Python's `$` (non-MULTILINE) also matches just before one trailing
newline, so `re.match(r"^...$", s)` accepts `s` with one final `\n`
stripped. -/
def stripTrailingNewline (cs : List Char) : List Char :=
  if cs.getLast? = some '\n' then cs.dropLast else cs

/-- `s.lower()` character-wise.  Python's `str.lower` is Unicode-aware,
but every string the SDK lowercases is first constrained (or compared)
to the ASCII identifier grammar, on which the two agree. -/
def pyToLower (s : String) : String :=
  String.mk (s.toList.map Char.toLower)

/-- `is_identifier(value: str)`: `bool(_IDENTIFIER_RE.match(value))`
with `_IDENTIFIER_RE = ^[A-Za-z_][A-Za-z0-9_]*$`. -/
def is_identifier (s : String) : Bool :=
  isIdentifierCore (stripTrailingNewline s.toList)

/-- `is_identifier` applied to an arbitrary Python value: `re.match`
raises `TypeError` when handed a non-string. -/
def is_identifierPy : PyVal → Except Err Bool
  | .pstr s => .ok (is_identifier s)
  | _ => .error (.pyTypeError "expected string or bytes-like object")

/-- `validate_identifier(value)` over an arbitrary Python value. -/
def validate_identifier (v : PyVal) : Except Err Unit := do
  let b ← is_identifierPy v
  if b then pure () else throw (.invalidIdentifier v.pyStr)

/-- `validate_index_option(name, value)`: value must be a lowercase
identifier string (the `isinstance` check guards the regex, so this one
is total over all Python values). -/
def validate_index_option (name : String) (v : PyVal) : Except Err Unit :=
  match v with
  | .pstr s =>
      if !is_identifier s || s ≠ pyToLower s then .error (.invalidIndexOption name)
      else .ok ()
  | _ => .error (.invalidIndexOption name)

/-- `validate_index_property_name(value)` -/
def validate_index_property_name (v : PyVal) : Except Err Unit :=
  match v with
  | .pstr s =>
      if !is_identifier s || s ≠ pyToLower s then
        .error (.invalidIndexPropertyName s)
      else .ok ()
  | _ => .error (.invalidIndexPropertyName v.pyStr)

/-- `validate_index_property_value(name, value)`: accepts
`{str, int, float, bool}`; string values must themselves be
identifiers. -/
def validate_index_property_value (name : String) (v : PyVal) : Except Err Unit :=
  if !v.isStrIntFloatBool then .error (.invalidIndexPropertyValue name)
  else match v with
    | .pstr s =>
        if !is_identifier s then .error (.invalidIndexPropertyValue name) else .ok ()
    | _ => .ok ()

/-- `sep.join(parts)` (Python `str.join`). -/
def pyJoin (sep : String) : List String → String
  | [] => ""
  | [x] => x
  | x :: rest => x ++ sep ++ pyJoin sep rest

/-! ## `seekme.vector.index` -/

/-- `_INDEX_PARAM_RULES[index_type]` as an (allowed, required) pair of
key lists; required single-element sets are kept in sorted order so
`sorted(required)[0]` is the head.  `none` encodes absence from the
rules table. -/
def indexParamRules : String → Option (List String × List String)
  | "hnsw" => some (["m", "ef_construction", "ef_search"], [])
  | "ivf_flat" => some (["nlist", "samples_per_nlist"], [])
  | "ivf_sq8" => some (["nlist", "samples_per_nlist"], [])
  | "ivf_pq" => some (["m", "nlist", "samples_per_nlist"], ["m"])
  | _ => none

/-- `_INDEX_INT_PARAMS` -/
def indexIntParams : List String :=
  ["m", "ef_construction", "ef_search", "nlist", "samples_per_nlist"]

/-- The `VectorIndexConfig` frozen dataclass's fields.  The properties
mapping is a Python dict, embedded as its (insertion-ordered) list of
key/value pairs. -/
structure VectorIndexConfig where
  name : String
  distance : String
  index_type : String
  lib : String
  properties : Option (List (String × PyVal))

/-- `_validate_index_type(index_type)` -/
def _validate_index_type (index_type : String) : Except Err Unit :=
  match indexParamRules index_type with
  | some _ => .ok ()
  | none => .error (.unsupportedIndexOption "index_type" index_type)

/-- The body of the `for key, value in properties.items()` loop of
`_validate_index_properties`, for one key/value pair. -/
def checkIndexProperty (indexType : String) (allowed : List String)
    (key : String) (value : PyVal) : Except Err Unit := do
  if !allowed.contains key then
    throw (.unsupportedIndexProperty indexType key)
  validate_index_property_name (.pstr key)
  validate_index_property_value key value
  if indexIntParams.contains key && !value.isInstInt then
    throw (.invalidIndexPropertyValue key)
  if indexIntParams.contains key && value.isInstInt && value.toIntVal ≤ 0 then
    throw (.invalidIndexPropertyValue key)

/-- The `for key, value in properties.items()` loop of
`_validate_index_properties`, iterating in insertion order. -/
def checkIndexProperties (indexType : String) (allowed : List String) :
    List (String × PyVal) → Except Err Unit
  | [] => .ok ()
  | (key, value) :: rest => do
      checkIndexProperty indexType allowed key value
      checkIndexProperties indexType allowed rest

/-- The `for key in required` loop of `_validate_index_properties`:
each required key must be present in the properties mapping. -/
def checkRequiredProperties (indexType : String)
    (properties : List (String × PyVal)) : List String → Except Err Unit
  | [] => .ok ()
  | key :: rest =>
      if !(properties.map Prod.fst).contains key then
        .error (.missingIndexProperty indexType key)
      else checkRequiredProperties indexType properties rest

/-- `_validate_index_properties(index_type, properties)`.  Looking up an
`index_type` absent from `_INDEX_PARAM_RULES` would raise `KeyError`
in Python; `__post_init__` validates the type first, so that branch is
unreachable from the dataclass. -/
def _validate_index_properties (indexType : String)
    (properties : Option (List (String × PyVal))) : Except Err Unit :=
  match indexParamRules indexType with
  | none => .error (.pyKeyError indexType)
  | some (allowed, required) =>
      match properties with
      | none =>
          match required with
          | [] => .ok ()
          | key :: _ => .error (.missingIndexProperty indexType key)
      | some props => do
          checkRequiredProperties indexType props required
          checkIndexProperties indexType allowed props

/-- `VectorIndexConfig.__post_init__`: the validation performed at
construction time (a frozen dataclass is immutable afterwards). -/
def VectorIndexConfig.validate (c : VectorIndexConfig) : Except Err Unit := do
  validate_identifier (.pstr c.name)
  validate_index_option "distance" (.pstr c.distance)
  validate_index_option "index_type" (.pstr c.index_type)
  validate_index_option "lib" (.pstr c.lib)
  _validate_index_type c.index_type
  _validate_index_properties c.index_type c.properties

/-- `_render_index_properties(properties)`: string values single-quoted,
everything else via f-string interpolation (`str(value)`). -/
def _render_index_properties : Option (List (String × PyVal)) → List String
  | none => []
  | some [] => []
  | some props =>
      props.map fun kv =>
        match kv.2 with
        | .pstr s => kv.1 ++ "=" ++ String.mk [squote] ++ s ++ String.mk [squote]
        | v => kv.1 ++ "=" ++ v.pyStr

/-- `VectorIndexConfig._render_params` -/
def VectorIndexConfig.renderParams (c : VectorIndexConfig) : String :=
  pyJoin ", "
    (["DISTANCE=" ++ c.distance, "TYPE=" ++ c.index_type, "LIB=" ++ c.lib]
      ++ _render_index_properties c.properties)

/-- `VectorIndexConfig.render_create_sql(collection, column="embedding")` -/
def VectorIndexConfig.render_create_sql (c : VectorIndexConfig)
    (collection : String) (column : String) : Except Err String := do
  validate_identifier (.pstr collection)
  validate_identifier (.pstr column)
  pure ("CREATE VECTOR INDEX " ++ c.name ++ " ON " ++ collection
    ++ " (" ++ column ++ ") WITH (" ++ c.renderParams ++ ")")

/-! ## JSON serialization (`json.dumps`, as the SDK uses it) -/

/-- JSON escaping of one character (backslash, quote and the common
control characters; other characters are passed through, which is all
the embedded code paths ever exercise). -/
def jsonEscapeChar (c : Char) : String :=
  if c = '\\' then "\\\\"
  else if c = dquote then String.mk ['\\', dquote]
  else if c = '\n' then "\\n"
  else if c = '\t' then "\\t"
  else if c = '\r' then "\\r"
  else String.mk [c]

/-- `json.dumps` of a string. -/
def jsonQuote (s : String) : String :=
  String.mk [dquote] ++ String.join (s.toList.map jsonEscapeChar) ++ String.mk [dquote]

mutual

/-- `json.dumps(value)` with the default separators; `none` when the
value is not JSON-serializable (e.g. `bytes`), where Python raises
`TypeError`. -/
def jsonDumps? : PyVal → Option String
  | .pstr s => some (jsonQuote s)
  | .pint n => some (toString n)
  | .pfloat r => some r
  | .pbool true => some "true"
  | .pbool false => some "false"
  | .pnone => some "null"
  | .pbytes _ => none
  | .plist xs =>
      (fun parts => "[" ++ pyJoin ", " parts ++ "]") <$> jsonDumpsList xs
  | .pdict kvs =>
      (fun parts => "\x7b" ++ pyJoin ", " parts ++ "\x7d") <$> jsonDumpsDict kvs

/-- `json.dumps` of each element of a list. -/
def jsonDumpsList : List PyVal → Option (List String)
  | [] => some []
  | x :: xs => do pure ((← jsonDumps? x) :: (← jsonDumpsList xs))

/-- `json.dumps` of each entry of an object. -/
def jsonDumpsDict : List (String × PyVal) → Option (List String)
  | [] => some []
  | (k, v) :: kvs => do
      pure ((jsonQuote k ++ ": " ++ (← jsonDumps? v)) :: (← jsonDumpsDict kvs))

end

/-! ## `seekme.vector.sql` -/

/-- A row returned by the driver. -/
abbrev Row := List (String × PyVal)

/-- One operation issued to the `Database` driver. -/
inductive DbOp where
  | execute (sql : String) (params : List (String × PyVal))
  | commit
  | fetchAll (sql : String) (params : List (String × PyVal))
  deriving Repr

/-- Association-list lookup (Python `dict[key]` / `key in dict`). -/
def alookup {α : Type} (kvs : List (String × α)) (key : String) : Option α :=
  (kvs.find? fun p => p.1 = key).map Prod.snd

/-- `_DISTANCE_FUNCTIONS` -/
def _DISTANCE_FUNCTIONS : List (String × String) :=
  [("l2", "l2_distance"), ("cosine", "cosine_distance"),
   ("inner_product", "inner_product")]

/-- `_DISTANCE_ALIASES = {value: key for key, value in _DISTANCE_FUNCTIONS.items()}` -/
def _DISTANCE_ALIASES : List (String × String) :=
  _DISTANCE_FUNCTIONS.map fun p => (p.2, p.1)

/-- `_normalize_distance_name(distance)` -/
def _normalize_distance_name (distance : String) : Except Err String := do
  validate_index_option "distance" (.pstr distance)
  if (alookup _DISTANCE_FUNCTIONS distance).isSome then
    pure distance
  else
    match alookup _DISTANCE_ALIASES distance with
    | some canonical => pure canonical
    | none => pure distance

/-- `_normalize_distance_function(distance)` -/
def _normalize_distance_function (distance : String) : Except Err String := do
  validate_index_option "distance" (.pstr distance)
  match alookup _DISTANCE_FUNCTIONS distance with
  | some func => pure func
  | none =>
      if (alookup _DISTANCE_ALIASES distance).isSome then
        pure distance
      else
        pure distance

/-- `_resolve_distance(distance)`: `(canonical_name, distance_function)`. -/
def _resolve_distance (distance : Option String) : Except Err (String × String) :=
  match distance with
  | none => .error .distanceRequired
  | some d => do
      let name ← _normalize_distance_name d
      let func ← _normalize_distance_function d
      pure (name, func)

/-- A query vector: the list of its coordinates' float reprs
(`json.dumps` renders a float by its repr, and `float(x)` is the
identity on floats). -/
abbrev FloatVec := List String

/-- `_vector_literal(vector)`: compact JSON array of the coordinates. -/
def _vector_literal (vector : FloatVec) : String :=
  "[" ++ pyJoin "," vector ++ "]"

/-- `_dump_metadata(value)` -/
def _dump_metadata (value : PyVal) : Except Err String :=
  match jsonDumps? value with
  | some s => .ok s
  | none => .error .metadataSerializationFailed

/-- The loop of `_select_fields`: validate each field, drop duplicates
(the `seen` set always holds exactly the accumulated fields). -/
def selectFieldsLoop : List String → List String → Except Err (List String)
  | [], fields => .ok fields
  | f :: rest, fields =>
      if !is_identifier f then .error (.invalidIdentifier f)
      else if fields.contains f then selectFieldsLoop rest fields
      else selectFieldsLoop rest (fields ++ [f])

/-- `_select_fields(return_fields, include_metadata)` -/
def _select_fields (return_fields : Option (List String))
    (include_metadata : Bool) : Except Err (List String) :=
  match return_fields with
  | none => .ok (if include_metadata then ["id", "metadata"] else ["id"])
  | some rfs => do
      let fields ← selectFieldsLoop rfs []
      if fields.isEmpty then .error .returnFieldsEmpty else .ok fields

/-- `_normalize_filter_key(key)` (keys are `str` by the `Mapping[str,
Any]` signature; only emptiness is left to check). -/
def _normalize_filter_key (key : String) : Except Err String :=
  if key = "" then .error (.invalidFilterKey key) else .ok key

/-- `_json_path(key)` -/
def _json_path (key : String) : String :=
  "$." ++ jsonQuote key

/-- `_json_filter_value(name, value)` -/
def _json_filter_value (name : String) (value : PyVal) : Except Err String :=
  match jsonDumps? value with
  | some s => .ok s
  | none => .error (.invalidFilterValue name)

/-- The `for index, (key, value) in enumerate(where.items())` loop of
`_build_where_clause`, returning the clauses and the bound parameters
in insertion order. -/
def whereLoop : Nat → List (String × PyVal) →
    Except Err (List String × List (String × PyVal))
  | _, [] => .ok ([], [])
  | index, (key, value) :: rest =>
      let paramName := "w" ++ toString index
      if key = "id" then do
        let (cs, ps) ← whereLoop (index + 1) rest
        pure (("id = :" ++ paramName) :: cs, (paramName, value) :: ps)
      else do
        let keyName ← _normalize_filter_key key
        let pathParam := "p" ++ toString index
        match value with
        | .pnone => do
            let (cs, ps) ← whereLoop (index + 1) rest
            pure (("JSON_EXTRACT(metadata, :" ++ pathParam ++ ") IS NULL") :: cs,
              (pathParam, .pstr (_json_path keyName)) :: ps)
        | v => do
            let filterValue ← _json_filter_value keyName v
            let (cs, ps) ← whereLoop (index + 1) rest
            pure (("JSON_EXTRACT(metadata, :" ++ pathParam ++ ") = CAST(:"
                ++ paramName ++ " AS JSON)") :: cs,
              (pathParam, .pstr (_json_path keyName))
                :: (paramName, .pstr filterValue) :: ps)

/-- `_build_where_clause(where)` -/
def _build_where_clause (whereArg : Option (List (String × PyVal))) :
    Except Err (String × List (String × PyVal)) :=
  match whereArg with
  | none => .ok ("", [])
  | some [] => .ok ("", [])
  | some w => do
      let (clauses, params) ← whereLoop 0 w
      pure ("WHERE " ++ pyJoin " AND " clauses, params)

/-- `SQLVectorStore._embed_text(query)` -/
def _embed_text (embedder : Option (List String → List FloatVec))
    (query : String) : Except Err FloatVec :=
  match embedder with
  | none => .error .embeddingNotConfigured
  | some embed =>
      match embed [query] with
      | [] => .error .embeddingEmpty
      | v :: _ => .ok v

/-- `SQLVectorStore._resolve_query(query)` -/
def _resolve_query (embedder : Option (List String → List FloatVec))
    (query : Sum FloatVec String) : Except Err FloatVec :=
  match query with
  | .inr text => _embed_text embedder text
  | .inl v => .ok v

/-- The upsert statement f-string of `SQLVectorStore.upsert`. -/
def upsertSql (collection : String) : String :=
  "\n                INSERT INTO " ++ collection ++ " (id, embedding, metadata)"
    ++ "\n                VALUES (:id, :embedding, :metadata)"
    ++ "\n                ON DUPLICATE KEY UPDATE"
    ++ "\n                    embedding = VALUES(embedding),"
    ++ "\n                    metadata = VALUES(metadata)"
    ++ "\n                "

/-- The rows of the upsert loop: `zip(ids_list, vectors_list)` paired
with `metadatas[position]` (realized by zipping, which agrees with the
positional indexing because the lengths were checked equal). -/
def upsertRows (ids : List String) (vectors : List FloatVec)
    (metadatas : Option (List PyVal)) : List ((String × FloatVec) × Option PyVal) :=
  match metadatas with
  | none => (ids.zip vectors).map fun r => (r, none)
  | some ms => (ids.zip vectors).zip (ms.map some)

/-- The `for position, (idx, vector) in enumerate(...)` loop of
`SQLVectorStore.upsert`: one parameterized INSERT per row, then a
single commit.  On failure the error is paired with the operations
already issued to the driver. -/
def upsertLoop (collection : String) :
    List ((String × FloatVec) × Option PyVal) → List DbOp →
    Except (Err × List DbOp) (List DbOp)
  | [], ops => .ok (ops ++ [DbOp.commit])
  | ((idx, vector), metadata) :: rest, ops =>
      match (match metadata with
             | none => Except.ok PyVal.pnone
             | some m => PyVal.pstr <$> _dump_metadata m) with
      | .error e => .error (e, ops)
      | .ok metadataParam =>
          upsertLoop collection rest (ops ++ [DbOp.execute (upsertSql collection)
            [("id", .pstr idx),
             ("embedding", .pstr (_vector_literal vector)),
             ("metadata", metadataParam)]])

/-- `SQLVectorStore.upsert(collection, ids, vectors, metadatas)`.  The
result carries the full trace of driver operations; an error carries
the operations issued before the failure. -/
def upsert (collection : String) (ids : List String) (vectors : List FloatVec)
    (metadatas : Option (List PyVal)) : Except (Err × List DbOp) (List DbOp) :=
  match validate_identifier (.pstr collection) with
  | .error e => .error (e, [])
  | .ok () =>
      if ids.length ≠ vectors.length then .error (.idsVectorsMismatch, [])
      else if (match metadatas with
               | some ms => ms.length != ids.length
               | none => false) then .error (.metadatasMismatch, [])
      else upsertLoop collection (upsertRows ids vectors metadatas) []

/-- The search statement f-string of `SQLVectorStore.search`. -/
def searchSql (select_clause collection where_clause order_by : String) : String :=
  "\n            SELECT " ++ select_clause
    ++ "\n            FROM " ++ collection
    ++ "\n            " ++ where_clause
    ++ "\n            ORDER BY " ++ order_by ++ " ASC"
    ++ "\n            LIMIT :top_k"
    ++ "\n            "

/-- `SQLVectorStore.search(...)`.  `db` is the backing engine's answer
to a `fetch_all`; the result pairs the returned rows with the trace of
driver operations (empty when the driver was never touched). -/
def search (db : String → List (String × PyVal) → List Row)
    (embedder : Option (List String → List FloatVec))
    (collection : String) (query : Sum FloatVec String) (top_k : Int)
    (distance : Option String) (whereArg : Option (List (String × PyVal)))
    (return_fields : Option (List String))
    (include_distance include_metadata : Bool) :
    Except Err (List Row × List DbOp) := do
  validate_identifier (.pstr collection)
  if top_k ≤ 0 then
    return ([], [])
  let vector ← _resolve_query embedder query
  let select_fields ← _select_fields return_fields include_metadata
  let dres ← _resolve_distance distance
  let distance_expr := dres.2 ++ "(embedding, :query)"
  let select_items :=
    if include_distance then select_fields ++ [distance_expr ++ " AS _distance"]
    else select_fields
  let order_by := if include_distance then "_distance" else distance_expr
  let select_clause := pyJoin ", " select_items
  let wres ← _build_where_clause whereArg
  let sql := searchSql select_clause collection wres.1 order_by
  let params := [("query", PyVal.pstr (_vector_literal vector)),
                 ("top_k", PyVal.pint top_k)] ++ wres.2
  pure (db sql params, [DbOp.fetchAll sql params])

/-! ## `seekme.db.drivers.seekdb` (placeholder substitution) -/

/-- `_escape_sql(value)`: double every single quote. -/
def escapeSqlChars : List Char → List Char
  | [] => []
  | c :: rest =>
      if c = squote then squote :: squote :: escapeSqlChars rest
      else c :: escapeSqlChars rest

/-- `_escape_sql(value)` on strings. -/
def _escape_sql (s : String) : String :=
  String.mk (escapeSqlChars s.toList)

/-- `_sql_literal(value)`: NULL for None, 1/0 for bools, `str` for
numbers, quoted-and-escaped text for bytes (already decoded) and for
everything else via `str(value)`. -/
def _sql_literal : PyVal → String
  | .pnone => "NULL"
  | .pbool b => if b then "1" else "0"
  | .pint n => toString n
  | .pfloat r => r
  | .pbytes t => String.mk [squote] ++ _escape_sql t ++ String.mk [squote]
  | v => String.mk [squote] ++ _escape_sql v.pyStr ++ String.mk [squote]

/-- The `_PARAM_RE.sub(replace, sql)` scan: leftmost non-overlapping
occurrences of `:identifier` are replaced by the SQL literal of the
bound value; an unbound name raises `MissingSqlParameter`.  Substituted
text is not rescanned, matching `re.sub`. -/
def renderSqlChars (params : List (String × PyVal)) : List Char → Except Err (List Char)
  | [] => .ok []
  | ':' :: c :: rest =>
      if isIdentStartChar c then
        let name := String.mk (c :: rest.takeWhile isIdentTailChar)
        match alookup params name with
        | none => .error (.missingSqlParameter name)
        | some v => do
            let r ← renderSqlChars params (rest.dropWhile isIdentTailChar)
            pure ((_sql_literal v).toList ++ r)
      else do
        let r ← renderSqlChars params (c :: rest)
        pure (':' :: r)
  | c :: rest => do
      let r ← renderSqlChars params rest
      pure (c :: r)
termination_by cs => cs.length
decreasing_by
  · simpa using Nat.lt_succ_of_le
      (Nat.le_succ_of_le (List.dropWhile_sublist isIdentTailChar).length_le)
  · simp
  · simp

/-- The named placeholders of a SQL text, in scan order (the same scan
as `renderSqlChars`). -/
def sqlPlaceholders : List Char → List String
  | ':' :: c :: rest =>
      if isIdentStartChar c then
        String.mk (c :: rest.takeWhile isIdentTailChar)
          :: sqlPlaceholders (rest.dropWhile isIdentTailChar)
      else sqlPlaceholders (c :: rest)
  | _ :: rest => sqlPlaceholders rest
  | [] => []
termination_by cs => cs.length
decreasing_by
  · simpa using Nat.lt_succ_of_le
      (Nat.le_succ_of_le (List.dropWhile_sublist isIdentTailChar).length_le)
  · simp
  · simp

/-- `_render_sql(sql, params)`: `if not params: return sql`, otherwise
substitute every placeholder. -/
def _render_sql (sql : String) (params : List (String × PyVal)) : Except Err String :=
  if params.isEmpty then .ok sql
  else String.mk <$> renderSqlChars params sql.toList

/-- Inverse scan of `_escape_sql`: recover the text of a quoted SQL
literal body, failing on any lone (unescaped) single quote. -/
def unescapeSqlChars : List Char → Option (List Char)
  | [] => some []
  | c :: rest =>
      if c = squote then
        match rest with
        | [] => none
        | c2 :: rest2 =>
            if c2 = squote then (fun r => squote :: r) <$> unescapeSqlChars rest2
            else none
      else (fun r => c :: r) <$> unescapeSqlChars rest

/-- Parse a single-quoted SQL string literal back to its text: the
literal must start and end with a quote and its body must contain
quotes only in adjacent (escaped) pairs. -/
def sqlUnquote? (t : String) : Option String :=
  match t.toList with
  | [] => none
  | c :: rest =>
      if c = squote then
        if rest.getLast? = some squote then
          String.mk <$> unescapeSqlChars rest.dropLast
        else none
      else none

/-! ## `seekme.db.drivers.sql` (`SQLDatabase` transaction handling) -/

/-- The transaction-relevant state of a `SQLDatabase` instance after
`_connection()` succeeded: whether `self._tx` holds a transaction
handle, and whether the underlying connection reports
`in_transaction()`. -/
structure SQLDatabaseState where
  tx : Bool
  connInTx : Bool
  deriving DecidableEq, Repr

/-- `SQLDatabase.begin` (success path): start a transaction only when
no handle is held and the connection is not already in one. -/
def SQLDatabase.begin (s : SQLDatabaseState) : SQLDatabaseState :=
  if !s.tx && !s.connInTx then ⟨true, true⟩ else s

/-- `SQLDatabase.commit` (success path): commit and drop the held
handle when there is one, else commit at the connection level. -/
def SQLDatabase.commit (s : SQLDatabaseState) : SQLDatabaseState :=
  if s.tx then ⟨false, false⟩ else ⟨s.tx, false⟩

/-- `SQLDatabase.rollback` (success path): mirror image of commit. -/
def SQLDatabase.rollback (s : SQLDatabaseState) : SQLDatabaseState :=
  if s.tx then ⟨false, false⟩ else ⟨s.tx, false⟩

/-- A transaction-management call on the driver. -/
inductive TxOp where
  | beginTx
  | commitTx
  | rollbackTx
  deriving DecidableEq, Repr

/-- Apply one transaction-management call. -/
def applyTxOp (s : SQLDatabaseState) : TxOp → SQLDatabaseState
  | .beginTx => SQLDatabase.begin s
  | .commitTx => SQLDatabase.commit s
  | .rollbackTx => SQLDatabase.rollback s

/-- Apply a sequence of transaction-management calls. -/
def applyTxOps (s : SQLDatabaseState) (ops : List TxOp) : SQLDatabaseState :=
  ops.foldl applyTxOp s

/-! ## `seekme.registry` -/

/-- Python's `str.strip()` whitespace class. -/
def isPySpace (c : Char) : Bool :=
  c = ' ' || c = '\t' || c = '\n' || c = '\r' || c = '\x0b' || c = '\x0c'

/-- `name.strip()` -/
def pyStrip (s : String) : String :=
  String.mk (((s.toList.dropWhile isPySpace).reverse.dropWhile isPySpace).reverse)

/-- `_normalize_name(name)`: strip, lowercase, reject empty with a bare
`ValueError`. -/
def _normalize_name (name : String) : Except Err String :=
  let value := pyToLower (pyStrip name)
  if value = "" then .error (.pyValueError "Extension name must be non-empty.")
  else .ok value

/-- Python call semantics of `ExtensionNotFoundError(...)`: the class's
`__init__` signature is `(self, kind: str, name: str)`, so a call with
any other number of positional arguments raises `TypeError` instead of
producing the error object. -/
def extensionNotFoundErrorCall : List String → Err
  | [kind, name] => .extensionNotFound kind name
  | _ => .pyTypeError
      "ExtensionNotFoundError.__init__() missing 1 required positional argument: name"

/-- `get_db_driver(name)` against a registry state (the module-level
`_db_factories` dict). -/
def get_db_driver {α : Type} (reg : List (String × α)) (name : String) :
    Except Err α := do
  let key ← _normalize_name name
  match alookup reg key with
  | some factory => .ok factory
  | none => .error (extensionNotFoundErrorCall
      ["Database driver " ++ String.mk [squote] ++ name ++ String.mk [squote]
        ++ " is not registered."])

/-- `get_vector_store(name)` against the `_vector_factories` dict. -/
def get_vector_store {α : Type} (reg : List (String × α)) (name : String) :
    Except Err α := do
  let key ← _normalize_name name
  match alookup reg key with
  | some factory => .ok factory
  | none => .error (extensionNotFoundErrorCall
      ["Vector store " ++ String.mk [squote] ++ name ++ String.mk [squote]
        ++ " is not registered."])

/-- `get_embedder(name)` against the `_embedder_factories` dict. -/
def get_embedder {α : Type} (reg : List (String × α)) (name : String) :
    Except Err α := do
  let key ← _normalize_name name
  match alookup reg key with
  | some factory => .ok factory
  | none => .error (extensionNotFoundErrorCall
      ["Embedder " ++ String.mk [squote] ++ name ++ String.mk [squote]
        ++ " is not registered."])

/-! ## Spec-side descriptions (for refinement statements) -/

/-- The spec's description of distance resolution, as amended: `None`
fails with `DistanceRequired`; a value that is not a lowercase
identifier string fails with `InvalidIndexOption`; a canonical metric
name maps to its distance function; a distance-function alias maps back
to its canonical name; any other lowercase identifier passes through
unchanged as both the metric name and the distance function. -/
def specResolveDistance (distance : Option String) : Except Err (String × String) :=
  match distance with
  | none => .error .distanceRequired
  | some s =>
      if !is_identifier s || s ≠ pyToLower s then .error (.invalidIndexOption "distance")
      else
        match alookup _DISTANCE_FUNCTIONS s with
        | some func => .ok (s, func)
        | none =>
            match alookup _DISTANCE_ALIASES s with
            | some canonical => .ok (canonical, s)
            | none => .ok (s, s)

/-- The spec's per-key property classification (rules 4-6 of the
validation contract): (4) key not allowed for the type, (5) malformed
property name/value, (6) integer property present but non-integer or
non-positive. -/
def specPropRuleError (indexType : String) (allowed : List String)
    (key : String) (value : PyVal) : Option Err :=
  if !allowed.contains key then some (.unsupportedIndexProperty indexType key)
  else
    match validate_index_property_name (.pstr key) with
    | .error e => some e
    | .ok () =>
        match validate_index_property_value key value with
        | .error e => some e
        | .ok () =>
            if indexIntParams.contains key
                && (!value.isInstInt || value.toIntVal ≤ 0) then
              some (.invalidIndexPropertyValue key)
            else none

/-- The first property key (in insertion order) violating one of the
per-key rules, together with the error it produces. -/
def specFirstPropError (indexType : String) (allowed : List String) :
    List (String × PyVal) → Option Err
  | [] => none
  | (key, value) :: rest =>
      match specPropRuleError indexType allowed key value with
      | some e => some e
      | none => specFirstPropError indexType allowed rest

/-- The spec's validation contract for `VectorIndexConfig`, as amended:
rules (1) malformed name/option identifiers, (2) unknown index type and
(3) missing required property are checked globally in that order;
rules (4)-(6) are then keyed to the first offending property in the
mapping's insertion order, with per-key precedence (4), (5), (6). -/
def specValidateConfig (c : VectorIndexConfig) : Except Err Unit := do
  validate_identifier (.pstr c.name)
  validate_index_option "distance" (.pstr c.distance)
  validate_index_option "index_type" (.pstr c.index_type)
  validate_index_option "lib" (.pstr c.lib)
  match indexParamRules c.index_type with
  | none => throw (.unsupportedIndexOption "index_type" c.index_type)
  | some (allowed, required) =>
      let props := c.properties.getD []
      match required.find? fun k => !(props.map Prod.fst).contains k with
      | some k => throw (.missingIndexProperty c.index_type k)
      | none =>
          match specFirstPropError c.index_type allowed props with
          | some e => throw e
          | none => pure ()

/-- The spec's rendering rule for one index property: string values
single-quoted, numeric/boolean values rendered literally. -/
def specRenderProperty (key : String) (value : PyVal) : String :=
  match value with
  | .pstr s => key ++ "=" ++ String.mk [squote] ++ s ++ String.mk [squote]
  | v => key ++ "=" ++ v.pyStr

/-- Concatenation of a list of strings (used to phrase the spec's
"followed by each declared property in insertion order"). -/
def joinAll : List String → String
  | [] => ""
  | x :: rest => x ++ joinAll rest

/-! ## Theorems -/

/-- Claim C3: each registry lookup on an unregistered name is supposed
to fail with `ExtensionNotFound` carrying the kind and the name, but
the registry constructs `ExtensionNotFoundError` with a single
pre-formatted message although its `__init__` requires `(kind, name)`,
so the lookup actually raises `TypeError`. -/
theorem C3_unregistered_lookup_raises_type_error :
    get_db_driver ([] : List (String × Unit)) "nope"
      = .error (.pyTypeError
          "ExtensionNotFoundError.__init__() missing 1 required positional argument: name")
    ∧ get_vector_store ([] : List (String × Unit)) "nope"
      = .error (.pyTypeError
          "ExtensionNotFoundError.__init__() missing 1 required positional argument: name")
    ∧ get_embedder ([] : List (String × Unit)) "nope"
      = .error (.pyTypeError
          "ExtensionNotFoundError.__init__() missing 1 required positional argument: name") :=
  ⟨rfl, rfl, rfl⟩

/-- Every error of `validate_index_option` is `InvalidIndexOption`. -/
theorem validate_index_option_error (name : String) (v : PyVal) (e : Err)
    (h : validate_index_option name v = .error e) : e = .invalidIndexOption name := by
  cases v <;> simp [validate_index_option] at h <;> try exact h.symm
  split at h
  · exact (Except.error.injEq _ _).mp h |>.symm
  · exact absurd h (by simp)

/-- Every error of `validate_index_property_value` is
`InvalidIndexPropertyValue`. -/
theorem validate_index_property_value_error (name : String) (v : PyVal) (e : Err)
    (h : validate_index_property_value name v = .error e) :
    e = .invalidIndexPropertyValue name := by
  cases v <;>
    simp [validate_index_property_value, PyVal.isStrIntFloatBool] at h <;>
    try exact h.symm
  split at h
  · exact (Except.error.injEq _ _).mp h |>.symm
  · exact absurd h (by simp)

/-- Claim C4, counterexample: `validate_identifier` on the integer `5`
raises a `TypeError` from `re.match`, which is not a typed validation
error, so the validators are not total over every input type. -/
theorem C4_counterexample :
    validate_identifier (.pint 5)
      = .error (.pyTypeError "expected string or bytes-like object")
    ∧ Err.isTypedValidation (.pyTypeError "expected string or bytes-like object")
      = false :=
  ⟨rfl, rfl⟩

/-- Claim C4 as amended: `validate_index_option` and
`validate_index_property_value` are total over every input value and
only ever raise typed validation errors; `is_identifier` and
`validate_identifier` are total over strings (the latter raising only
`InvalidIdentifier`), but raise `TypeError` on any non-string input. -/
theorem C4_validator_totality_amended (name : String) (v : PyVal) (s : String) :
    (validate_index_option name v = .ok ()
      ∨ ∃ e, validate_index_option name v = .error e ∧ e.isTypedValidation = true)
    ∧ (validate_index_property_value name v = .ok ()
      ∨ ∃ e, validate_index_property_value name v = .error e ∧ e.isTypedValidation = true)
    ∧ is_identifierPy (.pstr s) = .ok (is_identifier s)
    ∧ (validate_identifier (.pstr s) = .ok ()
      ∨ validate_identifier (.pstr s) = .error (.invalidIdentifier s))
    ∧ (v.isStr = false →
        validate_identifier v = .error (.pyTypeError "expected string or bytes-like object")) := by
  refine ⟨?_, ?_, rfl, ?_, ?_⟩
  · cases hres : validate_index_option name v with
    | ok u =>
        cases u
        exact Or.inl rfl
    | error e =>
        refine Or.inr ⟨e, rfl, ?_⟩
        rw [validate_index_option_error name v e hres]
        rfl
  · cases hres : validate_index_property_value name v with
    | ok u =>
        cases u
        exact Or.inl rfl
    | error e =>
        refine Or.inr ⟨e, rfl, ?_⟩
        rw [validate_index_property_value_error name v e hres]
        rfl
  · cases h : is_identifier s
    · exact Or.inr (by simp [validate_identifier, is_identifierPy, h, PyVal.pyStr,
        Bind.bind, Except.bind, throw, throwThe, MonadExceptOf.throw])
    · exact Or.inl (by simp [validate_identifier, is_identifierPy, h,
        Bind.bind, Except.bind, pure, Except.pure])
  · intro hv
    cases v <;>
      simp_all [PyVal.isStr, validate_identifier, is_identifierPy, Bind.bind, Except.bind]

/-- Claim C4 witness: the amended statement at a concrete non-string
input. -/
theorem C4_validator_totality_amended_witness :
    validate_identifier .pnone
      = .error (.pyTypeError "expected string or bytes-like object") :=
  (C4_validator_totality_amended "distance" .pnone "abc").2.2.2.2 rfl

/-- Claim C7: for a valid collection name and any query, a search with
`top_k <= 0` returns the empty result list, issues no driver operation
and raises no error. -/
theorem C7_search_topk_nonpositive
    (db : String → List (String × PyVal) → List Row)
    (embedder : Option (List String → List FloatVec))
    (collection : String) (query : Sum FloatVec String) (top_k : Int)
    (distance : Option String) (whereArg : Option (List (String × PyVal)))
    (return_fields : Option (List String))
    (include_distance include_metadata : Bool)
    (hc : is_identifier collection = true) (hk : top_k ≤ 0) :
    search db embedder collection query top_k distance whereArg return_fields
      include_distance include_metadata = .ok ([], []) := by
  unfold search
  simp [validate_identifier, is_identifierPy, hc, hk, Bind.bind, Except.bind,
    Functor.map, Except.map, pure, Except.pure]

/-- Claim C7 witness: a text query with no embedder bound and `top_k =
0` still returns cleanly without touching the driver. -/
theorem C7_search_topk_nonpositive_witness :
    search (fun _ _ => []) none "docs" (Sum.inr "free text") 0 (some "l2")
      none none true true = .ok ([], []) :=
  C7_search_topk_nonpositive (fun _ _ => []) none "docs" (Sum.inr "free text") 0
    (some "l2") none none true true (by decide) (by decide)

/-- Claim C9: the driver holds at most one transaction handle —
`begin` is a no-op while a transaction is open (held handle or
connection-level), `commit`/`rollback` always leave no held handle on
success, and over any call sequence a held handle implies the
connection is actually in a transaction. -/
theorem C9_transaction_handle (s : SQLDatabaseState) (ops : List TxOp) :
    (s.tx = true ∨ s.connInTx = true → SQLDatabase.begin s = s)
    ∧ (SQLDatabase.commit s).tx = false
    ∧ (SQLDatabase.rollback s).tx = false
    ∧ ((s.tx = true → s.connInTx = true) →
        (applyTxOps s ops).tx = true → (applyTxOps s ops).connInTx = true) := by
  refine ⟨?_, ?_, ?_, ?_⟩
  · intro h
    rcases h with h | h <;> simp [SQLDatabase.begin, h]
  · by_cases h : s.tx <;> simp [SQLDatabase.commit, h]
  · by_cases h : s.tx <;> simp [SQLDatabase.rollback, h]
  · induction ops generalizing s with
    | nil => intro h ht; exact h ht
    | cons op rest ih =>
        intro h ht
        refine ih (applyTxOp s op) ?_ ht
        cases op <;>
          simp [applyTxOp, SQLDatabase.begin, SQLDatabase.commit, SQLDatabase.rollback]
        · split <;> simp_all
        · split <;> simp_all
        · split <;> simp_all

/-- Claim C9 witness: the no-op and handle-clearing behavior at
concrete states. -/
theorem C9_transaction_handle_witness :
    SQLDatabase.begin ⟨true, true⟩ = ⟨true, true⟩
    ∧ (applyTxOps ⟨false, false⟩ [TxOp.beginTx]).connInTx = true :=
  ⟨(C9_transaction_handle ⟨true, true⟩ []).1 (Or.inl rfl),
   (C9_transaction_handle ⟨false, false⟩ [TxOp.beginTx]).2.2.2
     (fun h => absurd h (by decide)) rfl⟩

/-- Claim C10: an integer-marked index property given the Python
boolean `True` passes validation — booleans satisfy `isinstance(value,
int)` and `True` is positive — and in general any allowed property key
accepts `True`; for `hnsw` with `{"m": True}` the construction succeeds
and `render_create_sql` renders the boolean unquoted as `True`. -/
theorem C10_bool_integer_property (it key : String) (allowed : List String)
    (hk : allowed.contains key = true)
    (hname : validate_index_property_name (.pstr key) = .ok ()) :
    PyVal.isInstInt (.pbool true) = true
    ∧ (0 : Int) < PyVal.toIntVal (.pbool true)
    ∧ checkIndexProperty it allowed key (.pbool true) = .ok ()
    ∧ VectorIndexConfig.validate ⟨"idx_vec", "l2", "hnsw", "vsag", some [("m", .pbool true)]⟩ = .ok ()
    ∧ VectorIndexConfig.render_create_sql
        ⟨"idx_vec", "l2", "hnsw", "vsag", some [("m", .pbool true)]⟩ "docs" "embedding"
      = .ok "CREATE VECTOR INDEX idx_vec ON docs (embedding) WITH (DISTANCE=l2, TYPE=hnsw, LIB=vsag, m=True)" := by
  refine ⟨rfl, by decide, ?_, rfl, rfl⟩
  have hmem : key ∈ allowed := by simpa using hk
  simp [checkIndexProperty, hmem, hname, validate_index_property_value,
    PyVal.isStrIntFloatBool, PyVal.isInstInt, PyVal.toIntVal,
    Bind.bind, Except.bind, pure, Except.pure]

/-- Claim C10 witness: the per-key acceptance of `True` at the `hnsw`
rule table's `m` key. -/
theorem C10_bool_integer_property_witness :
    checkIndexProperty "hnsw" ["m", "ef_construction", "ef_search"] "m" (.pbool true)
      = .ok () :=
  (C10_bool_integer_property "hnsw" "m" ["m", "ef_construction", "ef_search"]
    (by decide) rfl).2.2.1

/-- Claim C1, counterexample: `"manhattan"` is a lowercase identifier
that is neither a canonical metric name nor a distance-function alias,
yet resolution does not fail with `InvalidIndexOption` — it passes the
name through unchanged, and a search call with it succeeds. -/
theorem C1_counterexample :
    is_identifier "manhattan" = true
    ∧ "manhattan" = pyToLower "manhattan"
    ∧ alookup _DISTANCE_FUNCTIONS "manhattan" = none
    ∧ alookup _DISTANCE_ALIASES "manhattan" = none
    ∧ _resolve_distance (some "manhattan") = .ok ("manhattan", "manhattan")
    ∧ search (fun _ _ => []) none "docs" (Sum.inl ["1.0"]) 1 (some "manhattan")
        none none true true
      = .ok ([], [DbOp.fetchAll
          (searchSql "id, metadata, manhattan(embedding, :query) AS _distance"
            "docs" "" "_distance")
          [("query", .pstr "[1.0]"), ("top_k", .pint 1)]]) :=
  ⟨rfl, rfl, rfl, rfl, rfl, rfl⟩

/-- Claim C1 as amended: `None` fails with `DistanceRequired`; a value
that is not a lowercase identifier string fails with
`InvalidIndexOption`; canonical names and function names map to each
other through the bidirectional alias table; any other lowercase
identifier is passed through unchanged as both the metric name and the
distance function, without error. -/
theorem C1_resolve_distance_amended (distance : Option String) :
    _resolve_distance distance = specResolveDistance distance := by
  cases distance with
  | none => rfl
  | some s =>
      by_cases hid : is_identifier s
      case neg =>
        simp [_resolve_distance, specResolveDistance, _normalize_distance_name,
          _normalize_distance_function, validate_index_option, hid,
          Bind.bind, Except.bind, pure, Except.pure]
      case pos =>
      by_cases hlow : s = pyToLower s
      case neg =>
        simp [_resolve_distance, specResolveDistance, _normalize_distance_name,
          _normalize_distance_function, validate_index_option, hid, hlow,
          Bind.bind, Except.bind, pure, Except.pure]
      case pos =>
      cases hf : alookup _DISTANCE_FUNCTIONS s with
      | some func =>
          simp [_resolve_distance, specResolveDistance, _normalize_distance_name,
            _normalize_distance_function, validate_index_option, hid, hlow.symm, hf,
            Bind.bind, Except.bind, pure, Except.pure]
      | none =>
          cases ha : alookup _DISTANCE_ALIASES s <;>
            simp [_resolve_distance, specResolveDistance, _normalize_distance_name,
              _normalize_distance_function, validate_index_option, hid, hlow.symm, hf, ha,
              Bind.bind, Except.bind, pure, Except.pure]

/-- Claim C2, counterexample: for `hnsw` with properties
`{"m": 0, "zzz": 1}` (in that insertion order) both rule (4) — `zzz` is
not an allowed key — and rule (6) — integer property `m <= 0` — are
violated; the claimed precedence demands the rule-(4) error, but the
code reports the rule-(6) error for `m` because it checks property by
property in insertion order. -/
theorem C2_counterexample :
    List.contains ["m", "ef_construction", "ef_search"] "zzz" = false
    ∧ VectorIndexConfig.validate
        ⟨"idx_vec", "l2", "hnsw", "vsag", some [("m", .pint 0), ("zzz", .pint 1)]⟩
      = .error (.invalidIndexPropertyValue "m")
    ∧ (Err.invalidIndexPropertyValue "m" == Err.unsupportedIndexProperty "hnsw" "zzz")
      = false :=
  ⟨rfl, rfl, rfl⟩

/-- The per-key loop body of `_validate_index_properties` agrees with
the spec's per-key rule classification (rules 4, 5, 6 in order). -/
theorem checkIndexProperty_eq_spec (it : String) (allowed : List String)
    (key : String) (value : PyVal) :
    checkIndexProperty it allowed key value =
      (match specPropRuleError it allowed key value with
       | some e => Except.error e
       | none => Except.ok ()) := by
  unfold checkIndexProperty specPropRuleError
  by_cases h1 : key ∈ allowed
  · cases h2 : validate_index_property_name (.pstr key) with
    | error e =>
        simp [h1, h2, Bind.bind, Except.bind, pure, Except.pure,
          throw, throwThe, MonadExceptOf.throw]
    | ok u =>
        cases u
        cases h3 : validate_index_property_value key value with
        | error e =>
            simp [h1, h2, h3, Bind.bind, Except.bind, pure, Except.pure,
              throw, throwThe, MonadExceptOf.throw]
        | ok u =>
            cases u
            by_cases h4 : key ∈ indexIntParams
            · cases h5 : value.isInstInt
              · simp [h1, h2, h3, h4, h5, Bind.bind, Except.bind, pure, Except.pure,
                  throw, throwThe, MonadExceptOf.throw]
              · by_cases h6 : value.toIntVal ≤ 0 <;>
                  simp [h1, h2, h3, h4, h5, h6, Bind.bind, Except.bind, pure, Except.pure,
                    throw, throwThe, MonadExceptOf.throw]
            · simp [h1, h2, h3, h4, Bind.bind, Except.bind, pure, Except.pure,
                throw, throwThe, MonadExceptOf.throw]
  · simp [h1, Bind.bind, Except.bind, pure, Except.pure,
      throw, throwThe, MonadExceptOf.throw]

/-- The property loop of `_validate_index_properties` reports exactly
the first offending key's error, in insertion order. -/
theorem checkIndexProperties_eq_spec (it : String) (allowed : List String) :
    ∀ props, checkIndexProperties it allowed props =
      (match specFirstPropError it allowed props with
       | some e => Except.error e
       | none => Except.ok ()) := by
  intro props
  induction props with
  | nil => rfl
  | cons kv rest ih =>
      obtain ⟨key, value⟩ := kv
      simp only [checkIndexProperties, specFirstPropError,
        checkIndexProperty_eq_spec it allowed key value, Bind.bind, Except.bind]
      cases specPropRuleError it allowed key value with
      | some e => rfl
      | none => exact ih

/-- The required-key loop of `_validate_index_properties` reports the
first missing required key. -/
theorem checkRequiredProperties_eq_spec (it : String)
    (props : List (String × PyVal)) :
    ∀ required, checkRequiredProperties it props required =
      (match required.find? (fun k => !(props.map Prod.fst).contains k) with
       | some k => Except.error (.missingIndexProperty it k)
       | none => Except.ok ()) := by
  intro required
  induction required with
  | nil => rfl
  | cons key rest ih =>
      by_cases h : key ∈ props.map Prod.fst <;>
        simp [checkRequiredProperties, List.find?, h, ih]

/-- Claim C2 as amended: construction reports exactly one validation
error; rules (1) malformed name/option identifiers, (2) unknown index
type and (3) missing required property are checked globally in that
order, and rules (4)-(6) are then decided by the first offending
property key in the mapping's insertion order, with per-key precedence
(4) not-allowed, (5) malformed name/value, (6) non-positive or
non-integer integer property. -/
theorem C2_validation_precedence_amended (c : VectorIndexConfig) :
    c.validate = specValidateConfig c := by
  unfold VectorIndexConfig.validate specValidateConfig
  cases h1 : validate_identifier (.pstr c.name) with
  | error e => simp [h1, Bind.bind, Except.bind]
  | ok u =>
  cases u
  cases h2 : validate_index_option "distance" (.pstr c.distance) with
  | error e => simp [h1, h2, Bind.bind, Except.bind]
  | ok u =>
  cases u
  cases h3 : validate_index_option "index_type" (.pstr c.index_type) with
  | error e => simp [h1, h2, h3, Bind.bind, Except.bind]
  | ok u =>
  cases u
  cases h4 : validate_index_option "lib" (.pstr c.lib) with
  | error e => simp [h1, h2, h3, h4, Bind.bind, Except.bind]
  | ok u =>
  cases u
  simp only [h1, h2, h3, h4, Bind.bind, Except.bind]
  cases hr : indexParamRules c.index_type with
  | none =>
      simp [_validate_index_type, _validate_index_properties, hr,
        Bind.bind, Except.bind, throw, throwThe, MonadExceptOf.throw]
  | some pr =>
      obtain ⟨allowed, required⟩ := pr
      simp only [_validate_index_type, _validate_index_properties, hr,
        Bind.bind, Except.bind, pure, Except.pure]
      cases hp : c.properties with
      | none =>
          cases required with
          | nil => simp [specFirstPropError]
          | cons k ks =>
              simp [List.find?, throw, throwThe, MonadExceptOf.throw]
      | some props =>
          simp only [Option.getD_some, checkRequiredProperties_eq_spec,
            checkIndexProperties_eq_spec, Bind.bind, Except.bind]
          cases required.find? (fun k => !(props.map Prod.fst).contains k) with
          | some k => simp [throw, throwThe, MonadExceptOf.throw]
          | none =>
              cases specFirstPropError c.index_type allowed props with
              | some e => simp [throw, throwThe, MonadExceptOf.throw]
              | none => simp [pure, Except.pure]

/-- The batch loop of `upsert` with no metadata list: one parameterized
insert per row, then a single commit, appended to the already-issued
operations. -/
theorem upsertLoop_map_none (collection : String) :
    ∀ (pairs : List (String × FloatVec)) (ops : List DbOp),
      upsertLoop collection (pairs.map fun r => (r, none)) ops
        = .ok (ops ++ pairs.map (fun r => DbOp.execute (upsertSql collection)
            [("id", .pstr r.1), ("embedding", .pstr (_vector_literal r.2)),
             ("metadata", .pnone)]) ++ [DbOp.commit]) := by
  intro pairs
  induction pairs with
  | nil => intro ops; simp [upsertLoop]
  | cons p rest ih =>
      intro ops
      obtain ⟨idx, vector⟩ := p
      simp [upsertLoop, ih, List.append_assoc]

/-- The batch loop of `upsert` with a metadata list whose entries all
serialize: one parameterized insert per row binding the serialized
metadata, then a single commit. -/
theorem upsertLoop_zip_rendered (collection : String) :
    ∀ (ms : List PyVal) (pairs : List (String × FloatVec)) (rs : List String)
      (ops : List DbOp),
      ms.mapM _dump_metadata = .ok rs →
      pairs.length = ms.length →
      upsertLoop collection (pairs.zip (ms.map some)) ops
        = .ok (ops ++ (pairs.zip rs).map (fun p => DbOp.execute (upsertSql collection)
            [("id", .pstr p.1.1), ("embedding", .pstr (_vector_literal p.1.2)),
             ("metadata", .pstr p.2)]) ++ [DbOp.commit]) := by
  intro ms
  induction ms with
  | nil =>
      intro pairs rs ops hm hl
      have hp : pairs = [] := List.length_eq_zero.mp hl
      have hr : rs = [] := by
        rw [List.mapM_nil] at hm
        simpa [pure, Except.pure] using hm.symm
      subst hp
      subst hr
      simp [upsertLoop]
  | cons m ms ih =>
      intro pairs rs ops hm hl
      cases pairs with
      | nil => exact absurd hl (by simp)
      | cons p ps =>
          obtain ⟨idx, vector⟩ := p
          have hl2 : ps.length = ms.length := by simpa using hl
          cases hd : _dump_metadata m with
          | error e =>
              rw [List.mapM_cons, hd] at hm
              simp [Bind.bind, Except.bind] at hm
          | ok r =>
              cases hrest : ms.mapM _dump_metadata with
              | error e =>
                  rw [List.mapM_cons, hd, hrest] at hm
                  simp [Bind.bind, Except.bind, pure, Except.pure] at hm
              | ok rs2 =>
                  have hrs : rs = r :: rs2 := by
                    rw [List.mapM_cons, hd, hrest] at hm
                    simp [Bind.bind, Except.bind, pure, Except.pure] at hm
                    exact hm.symm
                  subst hrs
                  simp only [List.map_cons, List.zip_cons_cons, upsertLoop, hd,
                    Functor.map, Except.map]
                  have hstep := ih ps rs2
                    (ops ++ [DbOp.execute (upsertSql collection)
                      [("id", .pstr idx), ("embedding", .pstr (_vector_literal vector)),
                       ("metadata", .pstr r)]]) hrest hl2
                  simp only [List.zip] at hstep
                  rw [hstep]
                  simp [List.append_assoc, List.zip]

/-- Claim C5: a batch upsert with mismatched `ids`/`vectors` lengths
fails with `IdsVectorsMismatch` before any driver operation, a
disagreeing metadata list fails with `MetadatasMismatch` before any
driver operation, and an agreeing batch issues exactly one
parameterized insert per row — binding id, embedding and metadata as
query parameters — followed by exactly one commit. -/
theorem C5_upsert_batch (collection : String) (ids : List String)
    (vectors : List FloatVec) (metadatas : Option (List PyVal))
    (hc : is_identifier collection = true) :
    (ids.length ≠ vectors.length →
      upsert collection ids vectors metadatas = .error (.idsVectorsMismatch, []))
    ∧ (∀ ms, metadatas = some ms → ids.length = vectors.length →
        ms.length ≠ ids.length →
        upsert collection ids vectors metadatas = .error (.metadatasMismatch, []))
    ∧ (metadatas = none → ids.length = vectors.length →
        upsert collection ids vectors metadatas
          = .ok ((ids.zip vectors).map (fun r => DbOp.execute (upsertSql collection)
              [("id", .pstr r.1), ("embedding", .pstr (_vector_literal r.2)),
               ("metadata", .pnone)]) ++ [DbOp.commit]))
    ∧ (∀ ms rs, metadatas = some ms → ids.length = vectors.length →
        ms.length = ids.length → ms.mapM _dump_metadata = .ok rs →
        upsert collection ids vectors metadatas
          = .ok (((ids.zip vectors).zip rs).map (fun p =>
              DbOp.execute (upsertSql collection)
                [("id", .pstr p.1.1), ("embedding", .pstr (_vector_literal p.1.2)),
                 ("metadata", .pstr p.2)]) ++ [DbOp.commit])) := by
  have hv : validate_identifier (.pstr collection) = .ok () := by
    simp [validate_identifier, is_identifierPy, hc, Bind.bind, Except.bind,
      pure, Except.pure]
  refine ⟨?_, ?_, ?_, ?_⟩
  · intro hne
    simp only [upsert, hv]
    rw [if_pos hne]
  · intro ms hms hlen hne
    subst hms
    simp only [upsert, hv]
    rw [if_neg (by simp [hlen])]
    rw [if_pos (by simp [hne])]
  · intro hms hlen
    subst hms
    simp only [upsert, hv]
    rw [if_neg (by simp [hlen])]
    rw [if_neg (by simp)]
    simpa [upsertRows] using upsertLoop_map_none collection (ids.zip vectors) []
  · intro ms rs hms hlen hmlen hmap
    subst hms
    simp only [upsert, hv]
    rw [if_neg (by simp [hlen])]
    rw [if_neg (by simp [hmlen])]
    have hzl : (ids.zip vectors).length = ms.length := by
      simp [List.length_zip, hlen.symm, hmlen]
    simpa [upsertRows] using
      upsertLoop_zip_rendered collection ms (ids.zip vectors) rs [] hmap hzl

/-- Claim C5 witness: a concrete mismatching call fails with the
ids/vectors mismatch and an empty driver trace, and a concrete
two-row batch issues two parameterized inserts and one commit. -/
theorem C5_upsert_batch_witness :
    upsert "docs" ["a", "b"] [["1.0"]] none = .error (.idsVectorsMismatch, [])
    ∧ upsert "docs" ["a", "b"] [["1.0"], ["0.0"]] none
      = .ok [DbOp.execute (upsertSql "docs")
               [("id", .pstr "a"), ("embedding", .pstr "[1.0]"), ("metadata", .pnone)],
             DbOp.execute (upsertSql "docs")
               [("id", .pstr "b"), ("embedding", .pstr "[0.0]"), ("metadata", .pnone)],
             DbOp.commit] := by
  constructor
  · exact (C5_upsert_batch "docs" ["a", "b"] [["1.0"]] none (by decide)).1 (by decide)
  · exact ((C5_upsert_batch "docs" ["a", "b"] [["1.0"], ["0.0"]] none
      (by decide)).2.2.1 rfl (by decide)).trans rfl

/-- Fusing two adjacent string literals under right association. -/
theorem append_lit_fuse (a b c : String) (h : a ++ b = c) (y : String) :
    a ++ (b ++ y) = c ++ y := by
  rw [← String.append_assoc, h]

/-- `str.join` of a list with head `a` concatenates `a` with each
remaining part prefixed by the separator. -/
theorem pyJoin_cons_joinAll (sep : String) :
    ∀ (l : List String) (a : String),
      pyJoin sep (a :: l) = a ++ joinAll (l.map fun x => sep ++ x) := by
  intro l
  induction l with
  | nil => intro a; simp [pyJoin, joinAll]
  | cons x rest ih =>
      intro a
      simp only [pyJoin, List.map_cons, joinAll, ih x]
      simp [String.append_assoc]

/-- The code's property renderer agrees with the spec's per-property
rendering rule, element by element. -/
theorem _render_index_properties_eq_map (props : List (String × PyVal)) :
    _render_index_properties (some props)
      = props.map fun kv => specRenderProperty kv.1 kv.2 := by
  cases props with
  | nil => rfl
  | cons kv rest => rfl

/-- The WITH-clause parameter string: DISTANCE, TYPE, LIB in that
order, followed by each declared property in insertion order. -/
theorem renderParams_eq (c : VectorIndexConfig) :
    c.renderParams
      = "DISTANCE=" ++ c.distance ++ ", " ++ "TYPE=" ++ c.index_type
        ++ ", " ++ "LIB=" ++ c.lib
        ++ joinAll ((c.properties.getD []).map fun kv =>
            ", " ++ specRenderProperty kv.1 kv.2) := by
  unfold VectorIndexConfig.renderParams
  cases hp : c.properties with
  | none =>
      simp [_render_index_properties, pyJoin, joinAll, String.append_assoc,
        append_lit_fuse ", " "TYPE=" ", TYPE=" rfl,
        append_lit_fuse ", " "LIB=" ", LIB=" rfl]
  | some props =>
      rw [_render_index_properties_eq_map]
      have h := pyJoin_cons_joinAll ", "
        (["TYPE=" ++ c.index_type, "LIB=" ++ c.lib]
          ++ props.map fun kv => specRenderProperty kv.1 kv.2)
        ("DISTANCE=" ++ c.distance)
      simp only [List.cons_append, List.nil_append] at h ⊢
      rw [h]
      simp only [joinAll, List.map_map, String.append_assoc,
        append_lit_fuse ", " "TYPE=" ", TYPE=" rfl,
        append_lit_fuse ", " "LIB=" ", LIB=" rfl]
      rfl

/-- Claim C6: `render_create_sql` revalidates collection and column,
and on success returns the statement whose WITH-clause lists
`DISTANCE=`, `TYPE=`, `LIB=` in that order followed by each declared
property in insertion order, with string values single-quoted and
numeric/boolean values rendered literally. -/
theorem C6_render_create_sql (c : VectorIndexConfig) (collection column : String)
    (_hval : c.validate = .ok ()) :
    (is_identifier collection = true → is_identifier column = true →
      c.render_create_sql collection column
        = .ok ("CREATE VECTOR INDEX " ++ c.name ++ " ON " ++ collection ++ " ("
            ++ column ++ ") WITH (" ++ "DISTANCE=" ++ c.distance ++ ", "
            ++ "TYPE=" ++ c.index_type ++ ", " ++ "LIB=" ++ c.lib
            ++ joinAll ((c.properties.getD []).map fun kv =>
                ", " ++ specRenderProperty kv.1 kv.2) ++ ")"))
    ∧ (is_identifier collection = false →
        c.render_create_sql collection column
          = .error (.invalidIdentifier collection))
    ∧ (is_identifier collection = true → is_identifier column = false →
        c.render_create_sql collection column
          = .error (.invalidIdentifier column)) := by
  refine ⟨?_, ?_, ?_⟩
  · intro h1 h2
    simp [VectorIndexConfig.render_create_sql, validate_identifier, is_identifierPy,
      h1, h2, Bind.bind, Except.bind, pure, Except.pure, renderParams_eq,
      String.append_assoc,
      append_lit_fuse ") WITH (" "DISTANCE=" ") WITH (DISTANCE=" rfl]
  · intro h1
    simp [VectorIndexConfig.render_create_sql, validate_identifier, is_identifierPy,
      h1, Bind.bind, Except.bind, pure, Except.pure, PyVal.pyStr,
      throw, throwThe, MonadExceptOf.throw]
  · intro h1 h2
    simp [VectorIndexConfig.render_create_sql, validate_identifier, is_identifierPy,
      h1, h2, Bind.bind, Except.bind, pure, Except.pure, PyVal.pyStr,
      throw, throwThe, MonadExceptOf.throw]

/-- Claim C6 witness: a fully concrete index configuration rendered
against collection `docs`, with an integer and a string property in
insertion order. -/
theorem C6_render_create_sql_witness :
    VectorIndexConfig.render_create_sql
      ⟨"idx_vec", "l2", "hnsw", "vsag", some [("m", .pint 4), ("ef_search", .pint 10)]⟩
      "docs" "embedding"
      = .ok "CREATE VECTOR INDEX idx_vec ON docs (embedding) WITH (DISTANCE=l2, TYPE=hnsw, LIB=vsag, m=4, ef_search=10)" :=
  ((C6_render_create_sql
      ⟨"idx_vec", "l2", "hnsw", "vsag", some [("m", .pint 4), ("ef_search", .pint 10)]⟩
      "docs" "embedding" rfl).1 (by decide) (by decide)).trans rfl

/-- Claim C8, counterexample: with an empty parameter mapping,
`_render_sql` returns the SQL unchanged even though it contains a named
placeholder, instead of failing with `MissingSqlParameter`. -/
theorem C8_counterexample :
    sqlPlaceholders ("SELECT :x".toList) = ["x"]
    ∧ _render_sql "SELECT :x" [] = .ok "SELECT :x" :=
  ⟨by simp [sqlPlaceholders, isIdentStartChar, isIdentTailChar], rfl⟩

/-- Binding and then returning a mapped value succeeds exactly when
the source does. -/
theorem exists_ok_bind_pure {α β : Type} (x : Except Err α) (f : α → β) :
    (∃ out, (do let r ← x; pure (f r) : Except Err β) = .ok out) ↔ ∃ r, x = .ok r := by
  cases x <;> simp [Bind.bind, Except.bind, pure, Except.pure]

/-- Binding and then returning a mapped value fails exactly with the
source's error. -/
theorem error_bind_pure {α β : Type} (x : Except Err α) (f : α → β) (e : Err) :
    ((do let r ← x; pure (f r) : Except Err β) = .error e) ↔ x = .error e := by
  cases x <;> simp [Bind.bind, Except.bind, pure, Except.pure]

/-- The placeholder-substitution scan succeeds exactly when every
placeholder of the SQL has a bound value. -/
theorem renderSqlChars_ok_iff (params : List (String × PyVal)) (cs : List Char) :
    (∃ out, renderSqlChars params cs = .ok out)
      ↔ ∀ n ∈ sqlPlaceholders cs, (alookup params n).isSome = true := by
  induction cs using renderSqlChars.induct params with
  | case1 => simp [renderSqlChars, sqlPlaceholders]
  | case2 c rest hstart nm hlook =>
      rw [renderSqlChars.eq_2, sqlPlaceholders.eq_1]
      simp only [hstart, if_true, hlook]
      refine iff_of_false (by simp) ?_
      intro hall
      have hmem := hall _ (List.mem_cons_self _ _)
      rw [hlook] at hmem
      simp at hmem
  | case3 c rest hstart nm m hlook ih =>
      rw [renderSqlChars.eq_2, sqlPlaceholders.eq_1]
      simp only [hstart, if_true, hlook]
      rw [exists_ok_bind_pure]
      constructor
      · intro ⟨r, hr⟩ n hn
        rcases List.mem_cons.mp hn with hn | hn
        · subst hn
          simp [hlook]
        · exact ih.mp ⟨r, hr⟩ n hn
      · intro hall
        exact ih.mpr fun n hn => hall n (List.mem_cons_of_mem _ hn)
  | case4 c rest hstart ih =>
      rw [renderSqlChars.eq_2, sqlPlaceholders.eq_1]
      simp only [hstart, if_false, Bool.false_eq_true, ite_false]
      rw [exists_ok_bind_pure]
      exact ih
  | case5 c rest hcond ih =>
      rw [renderSqlChars.eq_3 params c rest hcond, sqlPlaceholders.eq_2 c rest hcond]
      rw [exists_ok_bind_pure]
      exact ih

/-- Every failure of the placeholder-substitution scan is a
`MissingSqlParameter` for a placeholder of the SQL that has no bound
value. -/
theorem renderSqlChars_error_missing (params : List (String × PyVal)) (cs : List Char) :
    ∀ e, renderSqlChars params cs = .error e →
      ∃ n, e = .missingSqlParameter n ∧ n ∈ sqlPlaceholders cs
        ∧ alookup params n = none := by
  induction cs using renderSqlChars.induct params with
  | case1 => intro e he; simp [renderSqlChars] at he
  | case2 c rest hstart nm hlook =>
      intro e he
      rw [renderSqlChars.eq_2] at he
      simp only [hstart, if_true, hlook] at he
      refine ⟨_, ?_, ?_, hlook⟩
      · exact ((Except.error.injEq _ _).mp he).symm
      · rw [sqlPlaceholders.eq_1]
        simp [hstart]
  | case3 c rest hstart nm m hlook ih =>
      intro e he
      rw [renderSqlChars.eq_2] at he
      simp only [hstart, if_true, hlook] at he
      rw [error_bind_pure] at he
      obtain ⟨n, hn1, hn2, hn3⟩ := ih e he
      refine ⟨n, hn1, ?_, hn3⟩
      rw [sqlPlaceholders.eq_1]
      simp only [hstart, if_true]
      exact List.mem_cons_of_mem _ hn2
  | case4 c rest hstart ih =>
      intro e he
      rw [renderSqlChars.eq_2] at he
      simp only [hstart, if_false, Bool.false_eq_true, ite_false] at he
      rw [error_bind_pure] at he
      obtain ⟨n, hn1, hn2, hn3⟩ := ih e he
      refine ⟨n, hn1, ?_, hn3⟩
      rw [sqlPlaceholders.eq_1]
      simp only [hstart, if_false, Bool.false_eq_true, ite_false]
      exact hn2
  | case5 c rest hcond ih =>
      intro e he
      rw [renderSqlChars.eq_3 params c rest hcond] at he
      rw [error_bind_pure] at he
      obtain ⟨n, hn1, hn2, hn3⟩ := ih e he
      exact ⟨n, hn1, by rw [sqlPlaceholders.eq_2 c rest hcond]; exact hn2, hn3⟩

/-- Undoing quote-doubling recovers the original text. -/
theorem unescapeSqlChars_escapeSqlChars :
    ∀ cs, unescapeSqlChars (escapeSqlChars cs) = some cs := by
  intro cs
  induction cs with
  | nil => rfl
  | cons c rest ih =>
      by_cases hc : c = squote
      · subst hc
        simp [escapeSqlChars, unescapeSqlChars, ih]
      · cases hrest : escapeSqlChars rest with
        | nil =>
            have hrest0 : rest = [] := by
              rw [hrest] at ih
              simpa [unescapeSqlChars] using ih.symm
            subst hrest0
            simp [escapeSqlChars, unescapeSqlChars, hc]
        | cons d ds =>
            rw [hrest] at ih
            simp only [escapeSqlChars, if_neg hc]
            rw [hrest]
            simp [unescapeSqlChars, hc, ih]

/-- A quoted, quote-doubled SQL string literal parses back to the
original text. -/
theorem sqlUnquote_quoted (l : List Char) :
    sqlUnquote? (String.mk [squote] ++ String.mk (escapeSqlChars l) ++ String.mk [squote])
      = some (String.mk l) := by
  have hdata : (String.mk [squote] ++ String.mk (escapeSqlChars l)
      ++ String.mk [squote]).toList = squote :: (escapeSqlChars l ++ [squote]) := by
    simp [String.toList, String.data_append]
  unfold sqlUnquote?
  rw [hdata]
  simp only [if_pos rfl, List.getLast?_concat, List.dropLast_concat, if_true]
  rw [unescapeSqlChars_escapeSqlChars]
  rfl

/-- Claim C8 as amended: when the parameter mapping is non-empty,
substitution succeeds exactly when every named placeholder has a bound
value, and any failure is a `MissingSqlParameter` naming an unbound
placeholder; every substituted literal is SQL-escaped — strings and
decoded binary data are single-quoted with quotes doubled (and parse
back to the original text), numeric values pass through, booleans
render as 1/0 and `None` as NULL.  With an empty mapping the SQL is
returned unchanged. -/
theorem C8_render_sql_amended :
    (∀ (sql : String) (params : List (String × PyVal)), params ≠ [] →
      ((∃ out, _render_sql sql params = .ok out)
        ↔ ∀ n ∈ sqlPlaceholders sql.toList, (alookup params n).isSome = true))
    ∧ (∀ (sql : String) (params : List (String × PyVal)) (e : Err),
        _render_sql sql params = .error e →
        ∃ n, e = .missingSqlParameter n ∧ n ∈ sqlPlaceholders sql.toList
          ∧ alookup params n = none)
    ∧ (∀ s : String, sqlUnquote? (_sql_literal (.pstr s)) = some s)
    ∧ (∀ t : String, sqlUnquote? (_sql_literal (.pbytes t)) = some t)
    ∧ (∀ b : Bool, _sql_literal (.pbool b) = if b then "1" else "0")
    ∧ (∀ n : Int, _sql_literal (.pint n) = toString n)
    ∧ (∀ r : String, _sql_literal (.pfloat r) = r)
    ∧ _sql_literal .pnone = "NULL" := by
  refine ⟨?_, ?_, ?_, ?_, fun b => rfl, fun n => rfl, fun r => rfl, rfl⟩
  · intro sql params hne
    have hemp : params.isEmpty = false := by
      cases params with
      | nil => exact absurd rfl hne
      | cons p ps => rfl
    unfold _render_sql
    rw [hemp]
    simp only [Bool.false_eq_true, if_false, ite_false]
    constructor
    · intro ⟨out, hout⟩
      have : ∃ r, renderSqlChars params sql.toList = .ok r := by
        cases hres : renderSqlChars params sql.toList with
        | error e => rw [hres] at hout; simp [Functor.map, Except.map] at hout
        | ok r => exact ⟨r, rfl⟩
      exact (renderSqlChars_ok_iff params sql.toList).mp this
    · intro hall
      obtain ⟨r, hr⟩ := (renderSqlChars_ok_iff params sql.toList).mpr hall
      have hr2 : renderSqlChars params sql.data = Except.ok r := hr
      exact ⟨String.mk r, by simp [hr2, Functor.map, Except.map]⟩
  · intro sql params e he
    unfold _render_sql at he
    by_cases hemp : params.isEmpty
    · rw [if_pos hemp] at he
      exact absurd he (by simp)
    · rw [if_neg hemp] at he
      have hres : renderSqlChars params sql.toList = .error e := by
        cases hres : renderSqlChars params sql.toList with
        | error e2 =>
            rw [hres] at he
            simp [Functor.map, Except.map] at he
            rw [he]
        | ok r => rw [hres] at he; simp [Functor.map, Except.map] at he
      exact renderSqlChars_error_missing params sql.toList e hres
  · intro s
    have h : _sql_literal (.pstr s)
        = String.mk [squote] ++ String.mk (escapeSqlChars s.toList) ++ String.mk [squote] := rfl
    rw [h, sqlUnquote_quoted]
    rfl
  · intro t
    have h : _sql_literal (.pbytes t)
        = String.mk [squote] ++ String.mk (escapeSqlChars t.toList) ++ String.mk [squote] := rfl
    rw [h, sqlUnquote_quoted]
    rfl

/-- Claim C8 witness: the amended statement at concrete inputs — a
bound placeholder substitutes successfully, and an unbound placeholder
(with a non-empty mapping) is reported missing. -/
theorem C8_render_sql_amended_witness :
    (∃ out, _render_sql "LIMIT :b" [("b", PyVal.pint 1)] = .ok out)
    ∧ (∃ n, Err.missingSqlParameter "a" = .missingSqlParameter n
        ∧ n ∈ sqlPlaceholders (":a".toList)
        ∧ alookup ([("b", PyVal.pint 1)] : List (String × PyVal)) n = none) := by
  constructor
  · refine (C8_render_sql_amended.1 "LIMIT :b" [("b", PyVal.pint 1)] (by simp)).mpr ?_
    intro n hn
    simp [sqlPlaceholders, isIdentStartChar, isIdentTailChar] at hn
    subst hn
    rfl
  · refine C8_render_sql_amended.2.1 ":a" [("b", PyVal.pint 1)] (.missingSqlParameter "a") ?_
    simp [_render_sql, renderSqlChars, isIdentStartChar, isIdentTailChar, alookup]

end SeekMe
